import Mathlib

/-!
Verification development for the risk-conditioned SAC repository.

The repository consists of three Python files:
* rlkit/torch/sac/risk_conditioned_sac.py — the trainer
  RiskConditionedSACTrainer (compute_loss, train_from_torch,
  try_update_target_networks, update_target_networks, end_epoch, the
  optimizers property);
* scripts/run_policy.py — the rollout / plotting script (simulate_policy);
* rlkit/samplers/data_collector/__init__.py — re-exports only.

We give a shallow embedding.  Tensors of shape [batch, 1] are lists of
rationals, with one scalar per batch row; a training batch is a list of
rows.  Networks are opaque functions supplied as parameters.  Sampling
from the policy distribution (rsample_and_logprob) is modelled by an
explicit seed: a distribution maps a seed to an action together with its
log-probability, and each textual sampling call in compute_loss receives
its own seed.  torch.exp is an opaque function parameter.  detach is the
identity at the level of values.
-/

namespace RCSAC

/-- Sum of a list of rationals (torch .sum over a [batch, 1] tensor). -/
def batchSum (xs : List ℚ) : ℚ := xs.foldr (fun a b => a + b) 0

/-- Mean of a list of rationals (torch .mean over a [batch, 1] tensor). -/
def tmean (xs : List ℚ) : ℚ := batchSum xs / xs.length

/-- torch.nn.functional.relu on a scalar. -/
def relu (x : ℚ) : ℚ := max 0 x

/-- Value-level model of Tensor.detach: the identity on values. -/
def detach (x : ℚ) : ℚ := x

/-- nn.MSELoss() with the default mean reduction: the mean of the
elementwise squared differences. -/
def mseLoss (input target : List ℚ) : ℚ :=
  tmean (List.zipWith (fun a b => (a - b) ^ 2) input target)

/-- A seed for one call of rsample_and_logprob. -/
abbrev Seed := ℕ

/-- A policy distribution: drawing a sample with a seed yields an action
and its log-probability (dist.rsample_and_logprob()). -/
def Dist (A : Type) := Seed → A × ℚ

/-- The networks held by RiskConditionedSACTrainer, as opaque functions.
The policy consumes the observation concatenated with allocated_risk and
risk_bound (torch.cat([obs, allocated_risk, risk_bound], dim=1), modelled
as a tuple) and yields a distribution; each critic consumes an
observation and an action and yields a scalar. -/
structure Nets (O A : Type) where
  policy : O × ℚ × ℚ → Dist A
  qf1 : O → A → ℚ
  qf2 : O → A → ℚ
  target_qf1 : O → A → ℚ
  target_qf2 : O → A → ℚ
  rf1 : O → A → ℚ
  rf2 : O → A → ℚ
  target_rf1 : O → A → ℚ
  target_rf2 : O → A → ℚ

/-- The scalar hyperparameters of the trainer that compute_loss reads. -/
structure HParams where
  discount : ℚ
  reward_scale : ℚ
  use_automatic_entropy_tuning : Bool
  target_entropy : ℚ

/-- One row of a training batch: the per-row scalars of the [batch, 1]
tensors rewards, terminals, collision, risk, risk_bound, allocated_risk,
and the per-row observation / action / next observation. -/
structure Row (O A : Type) where
  reward : ℚ
  terminal : ℚ
  obs : O
  action : A
  next_obs : O
  collision : ℚ
  risk : ℚ
  risk_bound : ℚ
  allocated_risk : ℚ

/-- A training batch is a list of rows. -/
abbrev Batch (O A : Type) := List (Row O A)

variable {O A : Type}

/-- obs_concat = torch.cat([obs, allocated_risk, risk_bound], dim=1),
per row. -/
def obs_concat (r : Row O A) : O × ℚ × ℚ :=
  (r.obs, r.allocated_risk, r.risk_bound)

/-- next_obs_concat = torch.cat([next_obs, allocated_risk, risk_bound],
dim=1), per row. -/
def next_obs_concat (r : Row O A) : O × ℚ × ℚ :=
  (r.next_obs, r.allocated_risk, r.risk_bound)

/-- new_obs_actions: first component of
self.policy(obs_concat).rsample_and_logprob(), sampled with seed s0. -/
def new_obs_action (nets : Nets O A) (s0 : Seed) (r : Row O A) : A :=
  (nets.policy (obs_concat r) s0).1

/-- log_pi: second component of the same sample. -/
def log_pi (nets : Nets O A) (s0 : Seed) (r : Row O A) : ℚ :=
  (nets.policy (obs_concat r) s0).2

/-- alpha: self.log_alpha.exp() when automatic entropy tuning is on,
literal 1 otherwise. -/
def alpha (ex : ℚ → ℚ) (hp : HParams) (log_alpha : ℚ) : ℚ :=
  if hp.use_automatic_entropy_tuning then ex log_alpha else 1

/-- alpha_loss:
-(self.log_alpha * (log_pi + self.target_entropy).detach()).mean() when
automatic entropy tuning is on, literal 0 otherwise. -/
def alpha_loss (hp : HParams) (log_alpha : ℚ) (nets : Nets O A) (s0 : Seed)
    (batch : Batch O A) : ℚ :=
  if hp.use_automatic_entropy_tuning then
    -(tmean (batch.map fun r =>
        log_alpha * detach (log_pi nets s0 r + hp.target_entropy)))
  else 0

/-- q_new_actions = torch.min(self.qf1(obs, new_obs_actions),
self.qf2(obs, new_obs_actions)), per row. -/
def q_new_actions (nets : Nets O A) (s0 : Seed) (r : Row O A) : ℚ :=
  min (nets.qf1 r.obs (new_obs_action nets s0 r))
      (nets.qf2 r.obs (new_obs_action nets s0 r))

/-- r_new_actions = torch.min(self.rf1(obs, new_obs_actions),
self.rf2(obs, new_obs_actions)), per row. -/
def r_new_actions (nets : Nets O A) (s0 : Seed) (r : Row O A) : ℚ :=
  min (nets.rf1 r.obs (new_obs_action nets s0 r))
      (nets.rf2 r.obs (new_obs_action nets s0 r))

/-- r_loss_coeff = 10.0. -/
def r_loss_coeff : ℚ := 10

/-- overused_risk = allocated_risk + r_new_actions - risk_bound. -/
def overused_risk (nets : Nets O A) (s0 : Seed) (r : Row O A) : ℚ :=
  r.allocated_risk + r_new_actions nets s0 r - r.risk_bound

/-- r_policy_loss = torch.nn.functional.relu(overused_risk) *
r_loss_coeff. -/
def r_policy_loss (nets : Nets O A) (s0 : Seed) (r : Row O A) : ℚ :=
  relu (overused_risk nets s0 r) * r_loss_coeff

/-- policy_loss = (alpha*log_pi - q_new_actions + r_policy_loss).mean(). -/
def policy_loss (ex : ℚ → ℚ) (hp : HParams) (log_alpha : ℚ)
    (nets : Nets O A) (s0 : Seed) (batch : Batch O A) : ℚ :=
  tmean (batch.map fun r =>
    alpha ex hp log_alpha * log_pi nets s0 r - q_new_actions nets s0 r
      + r_policy_loss nets s0 r)

/-- q1_pred = self.qf1(obs, actions), per row. -/
def q1_pred (nets : Nets O A) (r : Row O A) : ℚ := nets.qf1 r.obs r.action

/-- q2_pred = self.qf2(obs, actions), per row. -/
def q2_pred (nets : Nets O A) (r : Row O A) : ℚ := nets.qf2 r.obs r.action

/-- new_next_actions: first component of
self.policy(next_obs_concat).rsample_and_logprob(), with seed s. -/
def new_next_action (nets : Nets O A) (s : Seed) (r : Row O A) : A :=
  (nets.policy (next_obs_concat r) s).1

/-- new_log_pi: second component of the same sample. -/
def new_log_pi (nets : Nets O A) (s : Seed) (r : Row O A) : ℚ :=
  (nets.policy (next_obs_concat r) s).2

/-- target_q_values = torch.min(self.target_qf1(next_obs,
new_next_actions), self.target_qf2(next_obs, new_next_actions)) -
alpha * new_log_pi, per row, with the QF sampling seed s1. -/
def target_q_values (ex : ℚ → ℚ) (hp : HParams) (log_alpha : ℚ)
    (nets : Nets O A) (s1 : Seed) (r : Row O A) : ℚ :=
  min (nets.target_qf1 r.next_obs (new_next_action nets s1 r))
      (nets.target_qf2 r.next_obs (new_next_action nets s1 r))
    - alpha ex hp log_alpha * new_log_pi nets s1 r

/-- q_target = self.reward_scale * rewards + (1. - terminals) *
self.discount * target_q_values, per row. -/
def q_target (ex : ℚ → ℚ) (hp : HParams) (log_alpha : ℚ)
    (nets : Nets O A) (s1 : Seed) (r : Row O A) : ℚ :=
  hp.reward_scale * r.reward
    + (1 - r.terminal) * hp.discount * target_q_values ex hp log_alpha nets s1 r

/-- qf1_loss = self.qf_criterion(q1_pred, q_target.detach()). -/
def qf1_loss (ex : ℚ → ℚ) (hp : HParams) (log_alpha : ℚ)
    (nets : Nets O A) (s1 : Seed) (batch : Batch O A) : ℚ :=
  mseLoss (batch.map (q1_pred nets))
          (batch.map fun r => detach (q_target ex hp log_alpha nets s1 r))

/-- qf2_loss = self.qf_criterion(q2_pred, q_target.detach()). -/
def qf2_loss (ex : ℚ → ℚ) (hp : HParams) (log_alpha : ℚ)
    (nets : Nets O A) (s1 : Seed) (batch : Batch O A) : ℚ :=
  mseLoss (batch.map (q2_pred nets))
          (batch.map fun r => detach (q_target ex hp log_alpha nets s1 r))

/-- r1_pred = self.rf1(obs, actions), per row. -/
def r1_pred (nets : Nets O A) (r : Row O A) : ℚ := nets.rf1 r.obs r.action

/-- r2_pred = self.rf2(obs, actions), per row. -/
def r2_pred (nets : Nets O A) (r : Row O A) : ℚ := nets.rf2 r.obs r.action

/-- target_r_values = torch.min(self.target_rf1(next_obs,
new_next_actions), self.target_rf2(next_obs, new_next_actions)) -
alpha * new_log_pi, per row.  The risk branch of compute_loss re-samples
next_dist, so it carries its own seed s2. -/
def target_r_values (ex : ℚ → ℚ) (hp : HParams) (log_alpha : ℚ)
    (nets : Nets O A) (s2 : Seed) (r : Row O A) : ℚ :=
  min (nets.target_rf1 r.next_obs (new_next_action nets s2 r))
      (nets.target_rf2 r.next_obs (new_next_action nets s2 r))
    - alpha ex hp log_alpha * new_log_pi nets s2 r

/-- r_target = self.reward_scale * risk + (1. - terminals) *
self.discount * target_r_values, per row. -/
def r_target (ex : ℚ → ℚ) (hp : HParams) (log_alpha : ℚ)
    (nets : Nets O A) (s2 : Seed) (r : Row O A) : ℚ :=
  hp.reward_scale * r.risk
    + (1 - r.terminal) * hp.discount * target_r_values ex hp log_alpha nets s2 r

/-- rf1_loss = self.rf_criterion(r1_pred, r_target.detach()). -/
def rf1_loss (ex : ℚ → ℚ) (hp : HParams) (log_alpha : ℚ)
    (nets : Nets O A) (s2 : Seed) (batch : Batch O A) : ℚ :=
  mseLoss (batch.map (r1_pred nets))
          (batch.map fun r => detach (r_target ex hp log_alpha nets s2 r))

/-- rf2_loss = self.rf_criterion(r2_pred, r_target.detach()). -/
def rf2_loss (ex : ℚ → ℚ) (hp : HParams) (log_alpha : ℚ)
    (nets : Nets O A) (s2 : Seed) (batch : Batch O A) : ℚ :=
  mseLoss (batch.map (r2_pred nets))
          (batch.map fun r => detach (r_target ex hp log_alpha nets s2 r))

/-- The SACLosses namedtuple. -/
structure SACLosses where
  policy_loss : ℚ
  qf1_loss : ℚ
  qf2_loss : ℚ
  alpha_loss : ℚ
  rf1_loss : ℚ
  rf2_loss : ℚ
deriving DecidableEq

/-- compute_loss: the loss part of
RiskConditionedSACTrainer.compute_loss.  ex models torch.exp; s0 is the
seed of the dist sample, s1 of the QF-branch next_dist sample, s2 of the
risk-branch next_dist sample (three textual rsample_and_logprob calls). -/
def compute_loss (ex : ℚ → ℚ) (hp : HParams) (nets : Nets O A)
    (log_alpha : ℚ) (batch : Batch O A) (s0 s1 s2 : Seed) : SACLosses :=
  { policy_loss := policy_loss ex hp log_alpha nets s0 batch
    qf1_loss := qf1_loss ex hp log_alpha nets s1 batch
    qf2_loss := qf2_loss ex hp log_alpha nets s1 batch
    alpha_loss := alpha_loss hp log_alpha nets s0 batch
    rf1_loss := rf1_loss ex hp log_alpha nets s2 batch
    rf2_loss := rf2_loss ex hp log_alpha nets s2 batch }

/-- Names of the optimizers held by the trainer. -/
inductive OptName
  | alpha
  | policy
  | qf1
  | qf2
  | rf1
  | rf2
deriving DecidableEq

/-- The observable events of the update block of train_from_torch. -/
inductive TrainEvent
  | zero_grad : OptName → TrainEvent
  | backward : ℚ → TrainEvent
  | step : OptName → TrainEvent
deriving DecidableEq

/-- One optimizer update: opt.zero_grad(); loss.backward(); opt.step(). -/
def opt_update (o : OptName) (loss : ℚ) : List TrainEvent :=
  [TrainEvent.zero_grad o, TrainEvent.backward loss, TrainEvent.step o]

/-- The event trace of the update block of train_from_torch (lines
126-149): the alpha optimizer block runs only when automatic entropy
tuning is on, then the policy, qf1, qf2, rf1 and rf2 blocks run
unconditionally, in that textual order. -/
def train_events (useAuto : Bool) (L : SACLosses) : List TrainEvent :=
  (if useAuto then opt_update OptName.alpha L.alpha_loss else [])
    ++ opt_update OptName.policy L.policy_loss
    ++ opt_update OptName.qf1 L.qf1_loss
    ++ opt_update OptName.qf2 L.qf2_loss
    ++ opt_update OptName.rf1 L.rf1_loss
    ++ opt_update OptName.rf2 L.rf2_loss

/-- The optimizers stepped during a trace, in order. -/
def optimizer_steps (evs : List TrainEvent) : List OptName :=
  evs.filterMap fun e =>
    match e with
    | TrainEvent.step o => some o
    | _ => none

/-- The loss field of SACLosses on which each optimizer's backward is
called. -/
def loss_of (L : SACLosses) : OptName → ℚ
  | OptName.alpha => L.alpha_loss
  | OptName.policy => L.policy_loss
  | OptName.qf1 => L.qf1_loss
  | OptName.qf2 => L.qf2_loss
  | OptName.rf1 => L.rf1_loss
  | OptName.rf2 => L.rf2_loss

/-- Claimed formula (C4) for the policy loss, transcribed from the claim
wording: the mean over the batch of alpha * log_pi minus the minimum of
the two Q-critics at the freshly sampled action, plus
relu(allocated_risk + min(rf1, rf2) - risk_bound) scaled by 10.0, the
fresh action being sampled from the policy applied to the observation
concatenated with allocated_risk and risk_bound. -/
def claimed_policy_loss (ex : ℚ → ℚ) (hp : HParams) (log_alpha : ℚ)
    (nets : Nets O A) (s0 : Seed) (batch : Batch O A) : ℚ :=
  tmean (batch.map fun r =>
    let na := (nets.policy (r.obs, r.allocated_risk, r.risk_bound) s0).1
    let lp := (nets.policy (r.obs, r.allocated_risk, r.risk_bound) s0).2
    alpha ex hp log_alpha * lp
      - min (nets.qf1 r.obs na) (nets.qf2 r.obs na)
      + relu (r.allocated_risk
          + min (nets.rf1 r.obs na) (nets.rf2 r.obs na) - r.risk_bound) * 10)

/-- Claimed formula (C5) for the Q-critic regression target, transcribed
from the claim wording: reward_scale * rewards + (1 - terminals) *
discount * (min(target_qf1(next_obs, a), target_qf2(next_obs, a)) -
alpha * lp), where (a, lp) is sampled from the policy applied to the next
observation concatenated with allocated_risk and risk_bound. -/
def claimed_q_target (ex : ℚ → ℚ) (hp : HParams) (log_alpha : ℚ)
    (nets : Nets O A) (s1 : Seed) (r : Row O A) : ℚ :=
  let na := (nets.policy (r.next_obs, r.allocated_risk, r.risk_bound) s1).1
  let lp := (nets.policy (r.next_obs, r.allocated_risk, r.risk_bound) s1).2
  hp.reward_scale * r.reward
    + (1 - r.terminal) * hp.discount *
        (min (nets.target_qf1 r.next_obs na) (nets.target_qf2 r.next_obs na)
          - alpha ex hp log_alpha * lp)

/-- Claimed formula (C6) for the risk-critic regression target,
transcribed from the claim wording: the Q-critic target formula with risk
in place of rewards and the target risk critics in place of the target Q
critics. -/
def claimed_r_target (ex : ℚ → ℚ) (hp : HParams) (log_alpha : ℚ)
    (nets : Nets O A) (s2 : Seed) (r : Row O A) : ℚ :=
  let na := (nets.policy (r.next_obs, r.allocated_risk, r.risk_bound) s2).1
  let lp := (nets.policy (r.next_obs, r.allocated_risk, r.risk_bound) s2).2
  hp.reward_scale * r.risk
    + (1 - r.terminal) * hp.discount *
        (min (nets.target_rf1 r.next_obs na) (nets.target_rf2 r.next_obs na)
          - alpha ex hp log_alpha * lp)

/-- Helper: nn.MSELoss between two maps over the same batch is the mean
of the per-row squared differences. -/
theorem mseLoss_map {α : Type} (f g : α → ℚ) (l : List α) :
    mseLoss (l.map f) (l.map g) = tmean (l.map fun x => (f x - g x) ^ 2) := by
  simp [mseLoss, List.zipWith_map, List.zipWith_same]

end RCSAC

/-- C4: in compute_loss, the risk-shaping term of the policy loss is
relu(allocated_risk + min(rf1, rf2) - risk_bound) scaled by 10.0, and the
policy loss is the batch mean of alpha * log_pi - min(qf1, qf2) at the
fresh policy sample plus that term, the fresh actions being sampled from
the policy applied to the observation concatenated with allocated_risk
and risk_bound. -/
theorem RCSAC.policy_loss_matches_claim {O A : Type} (ex : ℚ → ℚ)
    (hp : RCSAC.HParams) (nets : RCSAC.Nets O A) (log_alpha : ℚ)
    (batch : RCSAC.Batch O A) (s0 s1 s2 : RCSAC.Seed) :
    (RCSAC.compute_loss ex hp nets log_alpha batch s0 s1 s2).policy_loss
      = RCSAC.claimed_policy_loss ex hp log_alpha nets s0 batch := rfl

/-- C5: in compute_loss, qf1_loss and qf2_loss are the mean squared
errors between qf1(obs, actions) respectively qf2(obs, actions) and the
(detached) target reward_scale * rewards + (1 - terminals) * discount *
(min of the two target Q critics at the next-state policy sample minus
alpha times its log-probability). -/
theorem RCSAC.qf_losses_match_claim {O A : Type} (ex : ℚ → ℚ)
    (hp : RCSAC.HParams) (nets : RCSAC.Nets O A) (log_alpha : ℚ)
    (batch : RCSAC.Batch O A) (s0 s1 s2 : RCSAC.Seed) :
    (RCSAC.compute_loss ex hp nets log_alpha batch s0 s1 s2).qf1_loss
        = RCSAC.tmean (batch.map fun r =>
            (nets.qf1 r.obs r.action
              - RCSAC.claimed_q_target ex hp log_alpha nets s1 r) ^ 2)
      ∧ (RCSAC.compute_loss ex hp nets log_alpha batch s0 s1 s2).qf2_loss
        = RCSAC.tmean (batch.map fun r =>
            (nets.qf2 r.obs r.action
              - RCSAC.claimed_q_target ex hp log_alpha nets s1 r) ^ 2) := by
  constructor
  · exact RCSAC.mseLoss_map _ _ batch
  · exact RCSAC.mseLoss_map _ _ batch

/-- C6: in compute_loss, rf1_loss and rf2_loss are the mean squared
errors between rf1(obs, actions) respectively rf2(obs, actions) and the
(detached) target reward_scale * risk + (1 - terminals) * discount *
(min of the two target risk critics at the next-state policy sample minus
alpha times its log-probability) — the Q-critic Bellman formula with risk
in place of rewards. -/
theorem RCSAC.rf_losses_match_claim {O A : Type} (ex : ℚ → ℚ)
    (hp : RCSAC.HParams) (nets : RCSAC.Nets O A) (log_alpha : ℚ)
    (batch : RCSAC.Batch O A) (s0 s1 s2 : RCSAC.Seed) :
    (RCSAC.compute_loss ex hp nets log_alpha batch s0 s1 s2).rf1_loss
        = RCSAC.tmean (batch.map fun r =>
            (nets.rf1 r.obs r.action
              - RCSAC.claimed_r_target ex hp log_alpha nets s2 r) ^ 2)
      ∧ (RCSAC.compute_loss ex hp nets log_alpha batch s0 s1 s2).rf2_loss
        = RCSAC.tmean (batch.map fun r =>
            (nets.rf2 r.obs r.action
              - RCSAC.claimed_r_target ex hp log_alpha nets s2 r) ^ 2) := by
  constructor
  · exact RCSAC.mseLoss_map _ _ batch
  · exact RCSAC.mseLoss_map _ _ batch

/-- C7: with automatic entropy tuning on, alpha_loss is the negated mean
of log_alpha times the (detached) sum of the policy log-probability and
target_entropy, the policy loss uses alpha = exp(log_alpha), and the
update block steps the alpha optimizer once; with tuning off, alpha_loss
is 0, the policy loss uses alpha = 1, and the alpha optimizer is never
stepped. -/
theorem RCSAC.entropy_tuning_cases {O A : Type} (ex : ℚ → ℚ)
    (hp : RCSAC.HParams) (nets : RCSAC.Nets O A) (log_alpha : ℚ)
    (batch : RCSAC.Batch O A) (s0 s1 s2 : RCSAC.Seed) :
    (RCSAC.compute_loss ex hp nets log_alpha batch s0 s1 s2).alpha_loss
        = (if hp.use_automatic_entropy_tuning then
            -(RCSAC.tmean (batch.map fun r =>
                log_alpha * (RCSAC.log_pi nets s0 r + hp.target_entropy)))
          else 0)
      ∧ (RCSAC.compute_loss ex hp nets log_alpha batch s0 s1 s2).policy_loss
        = RCSAC.tmean (batch.map fun r =>
            (if hp.use_automatic_entropy_tuning then ex log_alpha else 1)
              * RCSAC.log_pi nets s0 r
              - RCSAC.q_new_actions nets s0 r + RCSAC.r_policy_loss nets s0 r)
      ∧ (RCSAC.optimizer_steps
            (RCSAC.train_events hp.use_automatic_entropy_tuning
              (RCSAC.compute_loss ex hp nets log_alpha batch s0 s1 s2))).count
            RCSAC.OptName.alpha
        = (if hp.use_automatic_entropy_tuning then 1 else 0) := by
  obtain ⟨d, rs, u, te⟩ := hp
  cases u <;> exact ⟨rfl, rfl, rfl⟩

/-- C2 counterexample: with automatic entropy tuning enabled (the
constructor's default), one train_from_torch update block steps six
optimizers, not five. -/
theorem RCSAC.train_steps_not_five :
    ¬ (RCSAC.optimizer_steps
        (RCSAC.train_events true ⟨0, 0, 0, 0, 0, 0⟩)).length = 5 := by
  decide

/-- C2 amended: the update block of train_from_torch steps the
optimizers policy, qf1, qf2, rf1, rf2 in that fixed order, each as
zero_grad then backward on its loss then step, preceded by the same
pattern for the alpha optimizer exactly when automatic entropy tuning is
enabled (six steps in that case, five otherwise), and performs no other
optimizer steps. -/
theorem RCSAC.train_update_order (u : Bool) (L : RCSAC.SACLosses) :
    RCSAC.train_events u L
        = ((if u then [RCSAC.OptName.alpha] else [])
            ++ [RCSAC.OptName.policy, RCSAC.OptName.qf1, RCSAC.OptName.qf2,
                RCSAC.OptName.rf1, RCSAC.OptName.rf2]).flatMap
            (fun o => RCSAC.opt_update o (RCSAC.loss_of L o))
      ∧ RCSAC.optimizer_steps (RCSAC.train_events u L)
        = (if u then [RCSAC.OptName.alpha] else [])
            ++ [RCSAC.OptName.policy, RCSAC.OptName.qf1, RCSAC.OptName.qf2,
                RCSAC.OptName.rf1, RCSAC.OptName.rf2] := by
  cases u <;> exact ⟨rfl, rfl⟩

namespace Trainer

/-- The stateful bookkeeping of RiskConditionedSACTrainer: the parameter
vectors of the four critics and their target networks (each a list of
rationals), the hyperparameters soft_target_tau and
target_update_period, the step counter, the eval-statistics flag and the
stored statistics (of abstract type σ, OrderedDict in the source). -/
structure TState (σ : Type) where
  qf1 : List ℚ
  qf2 : List ℚ
  rf1 : List ℚ
  rf2 : List ℚ
  target_qf1 : List ℚ
  target_qf2 : List ℚ
  target_rf1 : List ℚ
  target_rf2 : List ℚ
  soft_target_tau : ℚ
  target_update_period : ℕ
  n_train_steps_total : ℕ
  need_to_update_eval_statistics : Bool
  eval_statistics : σ
deriving DecidableEq

variable {σ : Type}

/-- Modelled from the spec: ptu.soft_update_from_to is imported from the
vendored external rlkit library, whose sources are not part of this
repository; it is the standard polyak averaging step
target.data = target.data * (1 - tau) + source.data * tau, elementwise
over the parameter vectors. -/
def soft_update_from_to (source target : List ℚ) (tau : ℚ) : List ℚ :=
  List.zipWith (fun s t => t * (1 - tau) + s * tau) source target

/-- update_target_networks (lines 164-170): soft-updates target_qf1 from
qf1 and target_qf2 from qf2; no other field is written. -/
def update_target_networks (st : TState σ) : TState σ :=
  { st with
    target_qf1 := soft_update_from_to st.qf1 st.target_qf1 st.soft_target_tau
    target_qf2 := soft_update_from_to st.qf2 st.target_qf2 st.soft_target_tau }

/-- try_update_target_networks (lines 160-162), instrumented with
whether the update ran. -/
def try_update_target_networks (st : TState σ) : TState σ × Bool :=
  if st.n_train_steps_total % st.target_update_period = 0 then
    (update_target_networks st, true)
  else (st, false)

/-- The combined effect of the six backward/step blocks on the online
critic parameters, supplied opaquely: gradient mechanics are owned by
torch and the optimizer objects. -/
def apply_optimizers
    (f : List ℚ × List ℚ × List ℚ × List ℚ → List ℚ × List ℚ × List ℚ × List ℚ)
    (st : TState σ) : TState σ :=
  { st with
    qf1 := (f (st.qf1, st.qf2, st.rf1, st.rf2)).1
    qf2 := (f (st.qf1, st.qf2, st.rf1, st.rf2)).2.1
    rf1 := (f (st.qf1, st.qf2, st.rf1, st.rf2)).2.2.1
    rf2 := (f (st.qf1, st.qf2, st.rf1, st.rf2)).2.2.2 }

/-- The observable outcome of one train_from_torch call: the next
trainer state, the skip_statistics value passed to compute_loss, and
whether update_target_networks ran. -/
structure StepResult (σ : Type) where
  state : TState σ
  skip_statistics : Bool
  target_updated : Bool

/-- The bookkeeping of train_from_torch (lines 117-157): compute_loss is
called with skip_statistics = not self._need_to_update_eval_statistics
(stats skip models the LossStatistics it returns under that flag); the
optimizer steps run; the step counter is incremented;
try_update_target_networks runs; finally, if the flag is set, the
statistics are stored and the flag is cleared. -/
def train_from_torch
    (f : List ℚ × List ℚ × List ℚ × List ℚ → List ℚ × List ℚ × List ℚ × List ℚ)
    (stats : Bool → σ) (st : TState σ) : StepResult σ :=
  let skip := !st.need_to_update_eval_statistics
  let s := stats skip
  let st1 := apply_optimizers f st
  let st2 := { st1 with n_train_steps_total := st1.n_train_steps_total + 1 }
  let tu := try_update_target_networks st2
  let st3 := tu.1
  let st4 :=
    if st3.need_to_update_eval_statistics then
      { st3 with eval_statistics := s, need_to_update_eval_statistics := false }
    else st3
  { state := st4, skip_statistics := skip, target_updated := tu.2 }

/-- end_epoch (lines 345-346): re-arms the eval-statistics flag and
writes nothing else. -/
def end_epoch (st : TState σ) (epoch : ℕ) : TState σ :=
  { st with need_to_update_eval_statistics := true }

/-- The bookkeeping part of __init__: the step counter starts at 0, the
eval-statistics flag starts set, the statistics start empty. -/
def init_state (qf1 qf2 rf1 rf2 tqf1 tqf2 trf1 trf2 : List ℚ)
    (tau : ℚ) (period : ℕ) (empty_stats : σ) : TState σ :=
  { qf1 := qf1, qf2 := qf2, rf1 := rf1, rf2 := rf2
    target_qf1 := tqf1, target_qf2 := tqf2, target_rf1 := trf1, target_rf2 := trf2
    soft_target_tau := tau, target_update_period := period
    n_train_steps_total := 0
    need_to_update_eval_statistics := true
    eval_statistics := empty_stats }

/-- k successive train_from_torch calls. -/
def run
    (f : List ℚ × List ℚ × List ℚ × List ℚ → List ℚ × List ℚ × List ℚ × List ℚ)
    (stats : Bool → σ) (st : TState σ) : ℕ → TState σ
  | 0 => st
  | k + 1 => (train_from_torch f stats (run f stats st k)).state

/-- Whether the k-th call (1-indexed) of a sequence of train_from_torch
calls starting from st runs update_target_networks. -/
def updated_at_call
    (f : List ℚ × List ℚ × List ℚ × List ℚ → List ℚ × List ℚ × List ℚ × List ℚ)
    (stats : Bool → σ) (st : TState σ) (k : ℕ) : Bool :=
  (train_from_torch f stats (run f stats st (k - 1))).target_updated

/-- Helper: one train_from_torch call increments the step counter by one
and leaves target_update_period (and soft_target_tau) unchanged. -/
theorem train_from_torch_counter
    (f : List ℚ × List ℚ × List ℚ × List ℚ → List ℚ × List ℚ × List ℚ × List ℚ)
    (stats : Bool → σ) (st : TState σ) :
    (train_from_torch f stats st).state.n_train_steps_total
        = st.n_train_steps_total + 1
      ∧ (train_from_torch f stats st).state.target_update_period
        = st.target_update_period := by
  simp only [train_from_torch, try_update_target_networks, apply_optimizers,
    update_target_networks]
  split <;> split <;> exact ⟨rfl, rfl⟩

/-- Helper: after k train_from_torch calls the counter has grown by k
and target_update_period is unchanged. -/
theorem run_counter
    (f : List ℚ × List ℚ × List ℚ × List ℚ → List ℚ × List ℚ × List ℚ × List ℚ)
    (stats : Bool → σ) (st : TState σ) (k : ℕ) :
    (run f stats st k).n_train_steps_total = st.n_train_steps_total + k
      ∧ (run f stats st k).target_update_period = st.target_update_period := by
  induction k with
  | zero => exact ⟨rfl, rfl⟩
  | succ n ih =>
    have h := train_from_torch_counter f stats (run f stats st n)
    exact ⟨by rw [run, h.1, ih.1]; ring, by rw [run, h.2, ih.2]⟩

/-- Helper: one train_from_torch call reports a target update exactly
when the incremented counter is divisible by target_update_period. -/
theorem train_from_torch_updated
    (f : List ℚ × List ℚ × List ℚ × List ℚ → List ℚ × List ℚ × List ℚ × List ℚ)
    (stats : Bool → σ) (st : TState σ) :
    ((train_from_torch f stats st).target_updated = true
      ↔ (st.n_train_steps_total + 1) % st.target_update_period = 0) := by
  simp only [train_from_torch, try_update_target_networks, apply_optimizers]
  split <;> rename_i h
  · simpa using h
  · simpa using h

/-- Helper: try_update_target_networks leaves the eval-statistics flag
unchanged. -/
theorem try_update_need (st : TState σ) :
    (try_update_target_networks st).1.need_to_update_eval_statistics
      = st.need_to_update_eval_statistics := by
  simp only [try_update_target_networks, update_target_networks]
  split <;> rfl

/-- Helper: try_update_target_networks leaves the stored statistics
unchanged. -/
theorem try_update_eval (st : TState σ) :
    (try_update_target_networks st).1.eval_statistics = st.eval_statistics := by
  simp only [try_update_target_networks, update_target_networks]
  split <;> rfl

end Trainer

/-- Concrete trainer state for the C1 counterexample: all online critics
have parameter vector [1], all targets [0], soft_target_tau = 1/2. -/
def Trainer.stateC1 : Trainer.TState ℕ :=
  { qf1 := [1], qf2 := [1], rf1 := [1], rf2 := [1]
    target_qf1 := [0], target_qf2 := [0], target_rf1 := [0], target_rf2 := [0]
    soft_target_tau := 1/2, target_update_period := 1
    n_train_steps_total := 0, need_to_update_eval_statistics := true
    eval_statistics := 0 }

/-- C1 counterexample: update_target_networks does not soft-update the
risk-critic targets.  At stateC1, the claim that all four of target_qf1,
target_qf2, target_rf1, target_rf2 become
(1 - soft_target_tau) * old + soft_target_tau * source fails:
target_rf1 stays [0] instead of becoming [1/2]. -/
theorem Trainer.update_misses_risk_targets :
    ¬ ((Trainer.update_target_networks Trainer.stateC1).target_qf1
          = List.zipWith
              (fun q t => (1 - Trainer.stateC1.soft_target_tau) * t
                + Trainer.stateC1.soft_target_tau * q)
              Trainer.stateC1.qf1 Trainer.stateC1.target_qf1
        ∧ (Trainer.update_target_networks Trainer.stateC1).target_qf2
          = List.zipWith
              (fun q t => (1 - Trainer.stateC1.soft_target_tau) * t
                + Trainer.stateC1.soft_target_tau * q)
              Trainer.stateC1.qf2 Trainer.stateC1.target_qf2
        ∧ (Trainer.update_target_networks Trainer.stateC1).target_rf1
          = List.zipWith
              (fun q t => (1 - Trainer.stateC1.soft_target_tau) * t
                + Trainer.stateC1.soft_target_tau * q)
              Trainer.stateC1.rf1 Trainer.stateC1.target_rf1
        ∧ (Trainer.update_target_networks Trainer.stateC1).target_rf2
          = List.zipWith
              (fun q t => (1 - Trainer.stateC1.soft_target_tau) * t
                + Trainer.stateC1.soft_target_tau * q)
              Trainer.stateC1.rf2 Trainer.stateC1.target_rf2) := by
  intro h
  have hc := h.2.2.1
  norm_num [Trainer.update_target_networks, Trainer.soft_update_from_to,
    Trainer.stateC1] at hc

/-- C1 amended: every update_target_networks call (the one
try_update_target_networks performs) soft-updates the twin Q-critic
targets — each becomes (1 - soft_target_tau) * old + soft_target_tau *
source — and leaves the twin risk-critic targets, the online networks
and all bookkeeping fields unchanged. -/
theorem Trainer.update_target_networks_effect {σ : Type}
    (st : Trainer.TState σ) :
    (Trainer.update_target_networks st).target_qf1
        = List.zipWith
            (fun q t => (1 - st.soft_target_tau) * t + st.soft_target_tau * q)
            st.qf1 st.target_qf1
      ∧ (Trainer.update_target_networks st).target_qf2
        = List.zipWith
            (fun q t => (1 - st.soft_target_tau) * t + st.soft_target_tau * q)
            st.qf2 st.target_qf2
      ∧ (Trainer.update_target_networks st).target_rf1 = st.target_rf1
      ∧ (Trainer.update_target_networks st).target_rf2 = st.target_rf2
      ∧ (Trainer.update_target_networks st).qf1 = st.qf1
      ∧ (Trainer.update_target_networks st).qf2 = st.qf2
      ∧ (Trainer.update_target_networks st).rf1 = st.rf1
      ∧ (Trainer.update_target_networks st).rf2 = st.rf2
      ∧ (Trainer.update_target_networks st).n_train_steps_total
        = st.n_train_steps_total
      ∧ (Trainer.update_target_networks st).need_to_update_eval_statistics
        = st.need_to_update_eval_statistics
      ∧ (Trainer.update_target_networks st).eval_statistics
        = st.eval_statistics := by
  refine ⟨?_, ?_, rfl, rfl, rfl, rfl, rfl, rfl, rfl, rfl, rfl⟩ <;>
    · simp only [Trainer.update_target_networks, Trainer.soft_update_from_to]
      congr 1
      funext s t
      ring

/-- C8: eval statistics are refreshed from at most one batch per epoch:
a fresh trainer has the flag set; a train_from_torch call passes
skip_statistics = not flag to compute_loss, stores the full (non-skipped)
batch statistics exactly when the flag was set, and always leaves the
flag cleared afterwards; end_epoch re-arms the flag and leaves the stored
statistics unchanged. -/
theorem Trainer.eval_statistics_once_per_epoch {σ : Type}
    (f : List ℚ × List ℚ × List ℚ × List ℚ → List ℚ × List ℚ × List ℚ × List ℚ)
    (stats : Bool → σ) (st : Trainer.TState σ)
    (qf1 qf2 rf1 rf2 tqf1 tqf2 trf1 trf2 : List ℚ) (tau : ℚ) (period : ℕ)
    (empty_stats : σ) (epoch : ℕ) :
    (Trainer.init_state qf1 qf2 rf1 rf2 tqf1 tqf2 trf1 trf2 tau period
        empty_stats).need_to_update_eval_statistics = true
      ∧ (Trainer.train_from_torch f stats st).skip_statistics
        = !st.need_to_update_eval_statistics
      ∧ (Trainer.train_from_torch f stats st).state.eval_statistics
        = (if st.need_to_update_eval_statistics then stats false
          else st.eval_statistics)
      ∧ (Trainer.train_from_torch f stats st).state.need_to_update_eval_statistics
        = false
      ∧ (Trainer.end_epoch st epoch).need_to_update_eval_statistics = true
      ∧ (Trainer.end_epoch st epoch).eval_statistics = st.eval_statistics := by
  refine ⟨rfl, rfl, ?_, ?_, rfl, rfl⟩ <;>
    · simp only [Trainer.train_from_torch]
      cases h : st.need_to_update_eval_statistics <;>
        simp [h, Trainer.try_update_need, Trainer.try_update_eval,
          Trainer.apply_optimizers]

/-- C9: train_from_torch increments the step counter before
try_update_target_networks checks it: a call updates the target networks
iff the post-increment counter is divisible by target_update_period;
starting from a fresh trainer the counter after k calls is k, and for
every period p > 1 and 1 ≤ k < p, the k-th call after construction
performs no target update. -/
theorem Trainer.target_update_timing {σ : Type}
    (f : List ℚ × List ℚ × List ℚ × List ℚ → List ℚ × List ℚ × List ℚ × List ℚ)
    (stats : Bool → σ) (st : Trainer.TState σ)
    (qf1 qf2 rf1 rf2 tqf1 tqf2 trf1 trf2 : List ℚ) (tau : ℚ)
    (empty_stats : σ) (p k : ℕ) (hp1 : 1 < p) (hk1 : 1 ≤ k) (hkp : k < p) :
    (Trainer.train_from_torch f stats st).state.n_train_steps_total
        = st.n_train_steps_total + 1
      ∧ ((Trainer.train_from_torch f stats st).target_updated = true
        ↔ (st.n_train_steps_total + 1) % st.target_update_period = 0)
      ∧ (Trainer.run f stats
          (Trainer.init_state qf1 qf2 rf1 rf2 tqf1 tqf2 trf1 trf2 tau p
            empty_stats) k).n_train_steps_total = k
      ∧ Trainer.updated_at_call f stats
          (Trainer.init_state qf1 qf2 rf1 rf2 tqf1 tqf2 trf1 trf2 tau p
            empty_stats) k = false := by
  refine ⟨(Trainer.train_from_torch_counter f stats st).1,
    Trainer.train_from_torch_updated f stats st, ?_, ?_⟩
  · simpa [Trainer.init_state] using
      (Trainer.run_counter f stats
        (Trainer.init_state qf1 qf2 rf1 rf2 tqf1 tqf2 trf1 trf2 tau p
          empty_stats) k).1
  · have hc := Trainer.run_counter f stats
      (Trainer.init_state qf1 qf2 rf1 rf2 tqf1 tqf2 trf1 trf2 tau p
        empty_stats) (k - 1)
    have hu := Trainer.train_from_torch_updated f stats
      (Trainer.run f stats
        (Trainer.init_state qf1 qf2 rf1 rf2 tqf1 tqf2 trf1 trf2 tau p
          empty_stats) (k - 1))
    unfold Trainer.updated_at_call
    rw [Bool.eq_false_iff]
    intro htrue
    have h0 := hu.mp htrue
    have hn : (Trainer.run f stats
        (Trainer.init_state qf1 qf2 rf1 rf2 tqf1 tqf2 trf1 trf2 tau p
          empty_stats) (k - 1)).n_train_steps_total = k - 1 := by
      simpa [Trainer.init_state] using hc.1
    have hpp : (Trainer.run f stats
        (Trainer.init_state qf1 qf2 rf1 rf2 tqf1 tqf2 trf1 trf2 tau p
          empty_stats) (k - 1)).target_update_period = p := by
      simpa [Trainer.init_state] using hc.2
    rw [hn, hpp] at h0
    have hk : k - 1 + 1 = k := by omega
    rw [hk, Nat.mod_eq_of_lt hkp] at h0
    omega

/-- Identity optimizer effect, used in the C9 witness. -/
def Trainer.idOpt :
    List ℚ × List ℚ × List ℚ × List ℚ → List ℚ × List ℚ × List ℚ × List ℚ :=
  fun x => x

/-- Constant statistics function, used in the C9 witness. -/
def Trainer.constStats : Bool → ℕ := fun _ => 0

/-- Concrete trainer state for the C9 witness: counter 0, period 2. -/
def Trainer.stateC9 : Trainer.TState ℕ :=
  { qf1 := [1], qf2 := [1], rf1 := [1], rf2 := [1]
    target_qf1 := [0], target_qf2 := [0], target_rf1 := [0], target_rf2 := [0]
    soft_target_tau := 1/100, target_update_period := 2
    n_train_steps_total := 0, need_to_update_eval_statistics := true
    eval_statistics := 0 }

/-- Witness for the C9 theorem, at the identity optimizer effect,
constant statistics, the state stateC9, period p = 3 and call index
k = 2. -/
theorem Trainer.target_update_timing_witness :
    (Trainer.train_from_torch Trainer.idOpt Trainer.constStats
        Trainer.stateC9).state.n_train_steps_total
        = Trainer.stateC9.n_train_steps_total + 1
      ∧ ((Trainer.train_from_torch Trainer.idOpt Trainer.constStats
            Trainer.stateC9).target_updated = true
        ↔ (Trainer.stateC9.n_train_steps_total + 1)
            % Trainer.stateC9.target_update_period = 0)
      ∧ (Trainer.run Trainer.idOpt Trainer.constStats
          (Trainer.init_state [0] [0] [0] [0] [0] [0] [0] [0] (1/100) 3
            (0 : ℕ)) 2).n_train_steps_total = 2
      ∧ Trainer.updated_at_call Trainer.idOpt Trainer.constStats
          (Trainer.init_state [0] [0] [0] [0] [0] [0] [0] [0] (1/100) 3
            (0 : ℕ)) 2 = false :=
  Trainer.target_update_timing Trainer.idOpt Trainer.constStats Trainer.stateC9
    [0] [0] [0] [0] [0] [0] [0] [0] (1/100) 0 3 2
    (by decide) (by decide) (by decide)

namespace Setup

/-- The optimizer attributes created by __init__ (lines 69-109):
alpha_optimizer is assigned only inside the
`if self.use_automatic_entropy_tuning:` block, so it is an Option;
reading a Python attribute that was never assigned raises
AttributeError.  Optimizer objects themselves are opaque and carried as
tags of an abstract type. -/
structure TrainerAttrs (Opt : Type) where
  use_automatic_entropy_tuning : Bool
  alpha_optimizer : Option Opt
  policy_optimizer : Opt
  qf1_optimizer : Opt
  qf2_optimizer : Opt
  rf1_optimizer : Opt
  rf2_optimizer : Opt

/-- The attribute assignments of __init__ relevant to the optimizers
property: each optimizer_class(...) call yields a fresh opaque optimizer
object; the alpha optimizer is created exactly when
use_automatic_entropy_tuning is true. -/
def trainer_setup {Opt : Type} (useAuto : Bool)
    (alphaOpt policyOpt qf1Opt qf2Opt rf1Opt rf2Opt : Opt) :
    TrainerAttrs Opt :=
  { use_automatic_entropy_tuning := useAuto
    alpha_optimizer := if useAuto then some alphaOpt else none
    policy_optimizer := policyOpt
    qf1_optimizer := qf1Opt
    qf2_optimizer := qf2Opt
    rf1_optimizer := rf1Opt
    rf2_optimizer := rf2Opt }

/-- A Python exception raised during attribute lookup. -/
inductive PyError
  | attributeError (attr : String)
deriving DecidableEq

/-- The optimizers property (lines 362-371): it reads
self.alpha_optimizer unconditionally, then lists the six optimizers in
the source's order.  Reading the never-assigned attribute raises
AttributeError. -/
def optimizers {Opt : Type} (t : TrainerAttrs Opt) :
    Except PyError (List Opt) :=
  match t.alpha_optimizer with
  | none => Except.error (PyError.attributeError "alpha_optimizer")
  | some a =>
    Except.ok [a, t.qf1_optimizer, t.qf2_optimizer, t.rf1_optimizer,
      t.rf2_optimizer, t.policy_optimizer]

end Setup

/-- C10: a trainer constructed with use_automatic_entropy_tuning = false
never assigns alpha_optimizer, and reading the optimizers property —
which lists alpha_optimizer unconditionally — raises AttributeError;
with tuning enabled the property returns the six optimizers. -/
theorem Setup.optimizers_raises_without_tuning {Opt : Type}
    (alphaOpt policyOpt qf1Opt qf2Opt rf1Opt rf2Opt : Opt) :
    (Setup.trainer_setup false alphaOpt policyOpt qf1Opt qf2Opt rf1Opt
        rf2Opt).alpha_optimizer = none
      ∧ Setup.optimizers (Setup.trainer_setup false alphaOpt policyOpt qf1Opt
          qf2Opt rf1Opt rf2Opt)
        = Except.error (Setup.PyError.attributeError "alpha_optimizer")
      ∧ Setup.optimizers (Setup.trainer_setup true alphaOpt policyOpt qf1Opt
          qf2Opt rf1Opt rf2Opt)
        = Except.ok [alphaOpt, qf1Opt, qf2Opt, rf1Opt, rf2Opt, policyOpt] :=
  ⟨rfl, rfl, rfl⟩

namespace RunPolicy

/-- The fixed start locations of simulate_policy (lines 49 and 63). -/
def start_locations : List (List ℚ) := [[4, 4], [15, 10], [17, 17], [16, 5]]

/-- The arguments run_policy.py passes to the final plot_problem_paths
call: the trajectories, the risk-bound parameters, the per-rollout
times, the extra trajectories, and the environment's final start
state. -/
structure PlotArgs (P : Type) where
  paths : List P
  risk_bounds : List ℚ
  times : List ℚ
  extra_paths : List P
  final_env_start : List ℚ

/-- simulate_policy (lines 16-79), after loading the snapshot:
rollout s rb models rollout(env, policy, max_path_length=args.H,
render=True, risk_bound=rb, test_mode=True) with the environment's
current start state s (env.set_start_state mutates it); dur rb models
the wall-clock duration of the phase-one rollout at risk bound rb;
start0 is the environment's initial start state.  The script builds
paths per risk bound, then paths_s over the fixed start locations at
risk bound 0.1, then rebinds the variable paths to rollouts over the
same start locations at risk bound 0.3, sets the start state to
[4.0, 4.0], and calls plot_problem_paths(env, paths, risk_bounds, times,
..., extra_paths=paths_s). -/
def simulate_policy {P : Type} (rollout : List ℚ → ℚ → P) (dur : ℚ → ℚ)
    (start0 : List ℚ) (risk_bounds : List ℚ) : PlotArgs P :=
  let paths := risk_bounds.map fun rb => rollout start0 rb
  let times := risk_bounds.map dur
  let paths_s := start_locations.map fun s => rollout s (1/10)
  let paths := start_locations.map fun s => rollout s (3/10)
  { paths := paths
    risk_bounds := risk_bounds
    times := times
    extra_paths := paths_s
    final_env_start := [4, 4] }

/-- A rollout function that records its inputs, used to exhibit the C3
divergence. -/
def recordingRollout : List ℚ → ℚ → (List ℚ) × ℚ := fun s rb => (s, rb)

end RunPolicy

/-- C3: at the default risk bounds [0.1, 0.2, 0.3], the trajectories
passed to the final plotting call are not the per-risk-bound rollouts:
the script rebinds paths, so the plot receives the four rollouts from
the fixed start locations at risk bound 0.3 instead. -/
theorem RunPolicy.plot_receives_wrong_paths :
    (RunPolicy.simulate_policy RunPolicy.recordingRollout (fun _ => 0) [0, 0]
        [1/10, 1/5, 3/10]).paths
        ≠ [1/10, 1/5, 3/10].map (RunPolicy.recordingRollout [0, 0])
      ∧ (RunPolicy.simulate_policy RunPolicy.recordingRollout (fun _ => 0)
          [0, 0] [1/10, 1/5, 3/10]).paths
        = RunPolicy.start_locations.map
            (fun s => RunPolicy.recordingRollout s (3/10)) := by
  constructor
  · intro h
    have := congrArg List.length h
    simp [RunPolicy.simulate_policy, RunPolicy.start_locations] at this
  · rfl
